import Mathlib

/-!
Verification of the dblp crawler/analytics repository.

The definitions below are a shallow embedding of the TypeScript source:
  - `src/services/dblpService.ts` (fetchWithRetry, fetchDBLPData and its helpers),
  - the analytics module (`tokenize`, `generateTrends`, `findSimilarArticles`),
  - the data model of `src/types.ts`.

Modelling conventions:
  - JavaScript strings are Lean `String`s; all inputs of interest are ASCII, so
    `Char.toLower` and char-list comparisons agree with the JS semantics.
  - Absent (`undefined`) values are `Option.none`; the JS `x || d` default on
    strings (empty string counts as falsy) is `jsOrS`.
  - `cleanText` delegates markup stripping to the browser's `DOMParser`, an
    external collaborator outside this repository; it is modelled as the
    identity on present text, keeping the code's falsy-input guard (the spec
    notes cleanup failures fall back to the raw text).  No claim depends on the
    stripping itself.
  - Network nondeterminism is an explicit parameter: a crawl is modelled by the
    first page's hits, the parsed total-match count, and the list of remaining
    pages in the order their fetch tasks completed (each entry carrying the
    offset it was requested at).  The concurrency pool only constrains which
    completion orders are possible; it never reorders the appends themselves.
  - `Math.random()` fallback ids are modelled by an explicit generator
    `fresh : Nat → String` indexed by the hit's position.
-/

/-! ## Tokenizer (analytics module, `tokenize`) -/

/-- Stop-word set of the analytics module, verbatim from the source. -/
def STOP_WORDS : List String := [
  "the", "a", "an", "and", "or", "but", "in", "on", "at", "to", "for", "of", "with", "by",
  "from", "up", "about", "into", "over", "after", "is", "are", "was", "were", "be", "been",
  "being", "have", "has", "had", "do", "does", "did", "will", "would", "should", "can", "could",
  "this", "that", "these", "those", "it", "its", "they", "their", "we", "our", "which", "who",
  "what", "when", "where", "how", "why", "based", "using", "via", "through", "approach", "method",
  "system", "analysis", "survey", "review", "study", "towards", "new", "novel", "application",
  "performance", "evaluation", "data", "model", "algorithm", "network", "networks", "learning",
  "problem", "problems", "efficient", "multi", "large", "scale", "real", "time", "under", "during",
  "between", "among", "proposed", "framework", "architecture"]

/-- ASCII word character, the regex class backslash-w: letters, digits, underscore. -/
def wordChar (c : Char) : Bool := c.isAlphanum || c = '_'

/-- Characters kept by the cleanup regex (everything not matching the class
is removed): word characters, whitespace, and hyphens. -/
def keepChar (c : Char) : Bool := wordChar c || c.isWhitespace || c = '-'

/-- Split a character list at whitespace.  The JS source splits on runs of
whitespace; this splitter instead emits an empty fragment between consecutive
whitespace characters, but every such fragment is removed by the length
filter below, so the tokenizer's output coincides with the source's. -/
def splitWsAux : List Char → List Char → List (List Char)
  | [], cur => [cur.reverse]
  | c :: cs, cur =>
    if c.isWhitespace then cur.reverse :: splitWsAux cs []
    else splitWsAux cs (c :: cur)

/-- Split a character list into whitespace-separated fragments. -/
def splitWs (cs : List Char) : List (List Char) := splitWsAux cs []

/-- Token filter of the source: length strictly greater than 2, not a
stop word, not purely numeric. -/
def goodToken (cs : List Char) : Bool :=
  cs.length > 2 && !(STOP_WORDS.contains (String.mk cs)) && !(cs.all Char.isDigit)

/-- The analytics tokenizer: lowercase, drop punctuation except hyphens,
split on whitespace, filter short / stop / numeric tokens. -/
def tokenize (text : String) : List String :=
  ((splitWs ((text.data.map Char.toLower).filter keepChar)).filter goodToken).map String.mk

/-! ## Data model (`src/types.ts`) -/

/-- Venue classification of a record. -/
inductive VenueType
  | Journal
  | Conference
  | Editorship
  | Unknown
deriving DecidableEq, Repr

/-- The normalized bibliographic record (`Article` in `src/types.ts`).
Default field values only ease the construction of concrete fixtures. -/
structure Article where
  id : String := ""
  title : String := ""
  authors : List String := [("Unknown Author")]
  venue : String := ""
  venueType : VenueType := VenueType.Unknown
  year : String := ""
  type : String := ("Unknown")
  doi : Option String := none
  url : Option String := none
  key : Option String := none
  selected : Bool := false
deriving DecidableEq, Repr

/-- The venue-type filter of `SearchParams.typeFilter`. -/
inductive TypeFilter
  | all
  | journal
  | conference
deriving DecidableEq, Repr

/-- Search parameters (`SearchParams` in `src/types.ts`).  The `mode` and
`query` fields only drive URL construction and are not needed by any claim. -/
structure SearchParams where
  yearStart : Option String := none
  yearEnd : Option String := none
  typeFilter : TypeFilter := TypeFilter.all
  maxResults : Nat := 50
deriving DecidableEq, Repr

/-- Shape of the raw `info.authors.author` field in a DBLP JSON hit: it may be
absent, an array of author objects, a single object, or some other value
(the source's final fallback branch). -/
inductive AuthorsField
  | absent
  | noAuthor
  | arr (texts : List String)
  | single (text : String)
  | other
deriving DecidableEq, Repr

/-- Raw `hit.info` payload of a DBLP page.  Absent JSON fields are `none`. -/
structure HitInfo where
  type : Option String := none
  key : Option String := none
  title : Option String := none
  venue : Option String := none
  year : Option String := none
  doi : Option String := none
  url : Option String := none
  authors : AuthorsField := AuthorsField.absent
deriving DecidableEq, Repr

/-- A raw hit of a DBLP page: the `@id` attribute and the `info` object. -/
structure Hit where
  atId : Option String := none
  info : Option HitInfo := none
deriving DecidableEq, Repr

/-! ## Helpers of `src/services/dblpService.ts` -/

/-- JS `a || b` on an optional string: `undefined` and `""` are falsy. -/
def jsOrS (a : Option String) (b : String) : String :=
  match a with
  | none => b
  | some s => if s = "" then b else s

/-- `cleanText`: the source strips HTML entities with the browser's
`DOMParser` (external to the repository) and returns `""` on falsy input.
Modelled as the identity on present text. -/
def cleanText (t : Option String) : String :=
  match t with
  | none => ""
  | some s => s

/-- Prefix test on strings, modelling `String.prototype.startsWith` at the
character level (the inputs of interest are ASCII). -/
def strStartsWith (s pre : String) : Bool :=
  pre.data.isPrefixOf s.data

/-- `getVenueType` from `dblpService.ts` lines 17-22: each branch ORs the
explicit type field with the key-prefix test, in the fixed order
Journal, Conference, Editorship. -/
def getVenueType (type? : Option String) (key : String) : VenueType :=
  if type? == some ("Article") || (key != "" && strStartsWith key ("journals/")) then
    VenueType.Journal
  else if type? == some ("Inproceedings") || (key != "" && strStartsWith key ("conf/")) then
    VenueType.Conference
  else if type? == some ("Editorship") then VenueType.Editorship
  else VenueType.Unknown

/-- `parseAuthors` from `dblpService.ts` lines 25-37.  Note that an
explicitly empty author array is truthy in JS, so it reaches the
`Array.isArray` branch and maps to the empty list. -/
def parseAuthors (info? : Option HitInfo) : List String :=
  match info? with
  | none => [("Unknown Author")]
  | some info =>
    match info.authors with
    | AuthorsField.absent => [("Unknown Author")]
    | AuthorsField.noAuthor => [("Unknown Author")]
    | AuthorsField.arr texts => texts.map (fun t => cleanText (some t))
    | AuthorsField.single t => [cleanText (some t)]
    | AuthorsField.other => [("Unknown Author")]

/-- Numeric value of a list of decimal digit characters. -/
def digitsVal (cs : List Char) : Nat :=
  cs.foldl (fun n c => 10 * n + (c.toNat - ('0').toNat)) 0

/-- JS `parseInt(s, 10)`: skip leading whitespace, optional sign, then the
longest run of leading digits; `none` models `NaN` (no digits found). -/
def jsParseInt (s : String) : Option Int :=
  let cs := s.data.dropWhile Char.isWhitespace
  let signed : Int × List Char :=
    match cs with
    | '-' :: rest => (-1, rest)
    | '+' :: rest => (1, rest)
    | _ => (1, cs)
  let digits := signed.2.takeWhile Char.isDigit
  if digits.isEmpty then none else some (signed.1 * (digitsVal digits : Int))

/-- Lower bound of the client-side year filter: `params.yearStart ?
parseInt(params.yearStart, 10) : 0`; `none` models `NaN`. -/
def startBound (yearStart : Option String) : Option Int :=
  match yearStart with
  | none => some 0
  | some s => if s = "" then some 0 else jsParseInt s

/-- Upper bound of the client-side year filter. -/
def endBound (yearEnd : Option String) : Option Int :=
  match yearEnd with
  | none => some 9999
  | some s => if s = "" then some 9999 else jsParseInt s

/-- `y >= start && y <= end` where a NaN bound makes the comparison false. -/
def yearMatchB (p : SearchParams) (y : Int) : Bool :=
  (match startBound p.yearStart with
   | some st => decide (st ≤ y)
   | none => false)
  && (match endBound p.yearEnd with
      | some en => decide (y ≤ en)
      | none => false)

/-- Venue-type test of the client-side filter. -/
def typeMatchB (tf : TypeFilter) (vt : VenueType) : Bool :=
  match tf with
  | TypeFilter.all => true
  | TypeFilter.journal => decide (vt = VenueType.Journal)
  | TypeFilter.conference => decide (vt = VenueType.Conference)

/-- The client-side filter predicate (`dblpService.ts` lines 222-236): a
record whose year does not parse returns `true` immediately, bypassing both
the year-range and the venue-type test. -/
def filterPred (p : SearchParams) (a : Article) : Bool :=
  match jsParseInt a.year with
  | none => true
  | some y => yearMatchB p y && typeMatchB p.typeFilter a.venueType

/-- Step 5 of `fetchDBLPData`: client-side filtering of the mapped articles. -/
def clientFilter (p : SearchParams) (articles : List Article) : List Article :=
  articles.filter (filterPred p)

/-- Step 4 of `fetchDBLPData` (lines 202-219): map one raw hit to the
internal model.  `fallback` stands for the `Math.random()` id generated when
both `hit["@id"]` and `info.key` are falsy. -/
def normalizeHit (fallback : String) (h : Hit) : Article :=
  let type? := h.info.bind (fun i => i.type)
  let key? := h.info.bind (fun i => i.key)
  { id := jsOrS h.atId (jsOrS key? fallback)
    title := cleanText (h.info.bind (fun i => i.title))
    authors := parseAuthors h.info
    venue := cleanText (h.info.bind (fun i => i.venue))
    venueType := getVenueType type? (jsOrS key? "")
    year := jsOrS (h.info.bind (fun i => i.year)) ""
    type := jsOrS type? ("Unknown")
    doi := h.info.bind (fun i => i.doi)
    url := h.info.bind (fun i => i.url)
    key := key?
    selected := false }

/-! ## `fetchWithRetry` (`dblpService.ts` lines 43-82)

The network is a function from the attempt index to that attempt's outcome.
`FetchTrace` records the final outcome, the number of `fetch` calls issued,
and the backoff delays awaited (in milliseconds, in order).  Cancellation
signals are not modelled (no claim concerns them). -/

/-- Outcome of one `fetch` call. -/
inductive AttemptResult
  | ok
  | httpStatus (code : Nat)
  | transportError
deriving DecidableEq, Repr

/-- Error carried out of `fetchWithRetry`: the thrown `DBLP API Error`
with its status, a transport error, or the final generic connection error
thrown when `lastError` is still null. -/
inductive FetchErr
  | apiError (code : Nat)
  | transport
  | noConnect
deriving DecidableEq, Repr

/-- Final outcome of `fetchWithRetry`. -/
inductive FetchOutcome
  | success
  | failure (e : FetchErr)
deriving DecidableEq, Repr

/-- Trace of one `fetchWithRetry` run. -/
structure FetchTrace where
  outcome : FetchOutcome
  attempts : Nat
  delays : List Nat
deriving DecidableEq, Repr

/-- The retry loop.  `fuel` is the number of iterations left, `i` the current
0-based iteration index.  On a non-ok status that is neither 5xx nor 429 the
source throws inside its own `try`, so the surrounding `catch` records the
error, awaits the same linear backoff, and the loop continues: the thrown
permanent error does NOT leave the loop early. -/
def fetchGo (net : Nat → AttemptResult) :
    Nat → Nat → Option FetchErr → List Nat → FetchTrace
  | 0, i, lastError, delays =>
    { outcome := FetchOutcome.failure (lastError.getD FetchErr.noConnect)
      attempts := i
      delays := delays.reverse }
  | fuel + 1, i, lastError, delays =>
    match net i with
    | AttemptResult.ok =>
      { outcome := FetchOutcome.success, attempts := i + 1, delays := delays.reverse }
    | AttemptResult.httpStatus code =>
      if 500 ≤ code ∨ code = 429 then
        fetchGo net fuel (i + 1) lastError (1000 * (i + 1) :: delays)
      else
        fetchGo net fuel (i + 1) (some (FetchErr.apiError code)) (1000 * (i + 1) :: delays)
    | AttemptResult.transportError =>
      fetchGo net fuel (i + 1) (some FetchErr.transport) (1000 * (i + 1) :: delays)

/-- `fetchWithRetry(url, retries)`: run the loop from iteration 0. -/
def fetchWithRetry (net : Nat → AttemptResult) (retries : Nat) : FetchTrace :=
  fetchGo net retries 0 none []

/-! ## Crawl coordination (`fetchDBLPData`, lines 84-245) -/

/-- Page size of every request (`BATCH_SIZE`). -/
def BATCH_SIZE : Nat := 100

/-- Concurrency bound of the sliding-window pool (`CONCURRENCY_LIMIT`).
It only constrains which completion orders are realizable; the accumulation
itself is in completion order. -/
def CONCURRENCY_LIMIT : Nat := 8

/-- `params.maxResults || 50` (0 is falsy). -/
def effMaxResults (m : Nat) : Nat := if m = 0 then 50 else m

/-- `totalMatches` after parsing the first page: stays 0 when the
`@total` field is absent (or parses to 0). -/
def totalMatchesOf (parsed : Option Nat) : Nat := parsed.getD 0

/-- The `effectiveTotal` reported by the progress callback after the first
page: `totalMatches > 0 ? min(totalMatches, maxResults) : maxResults`. -/
def effectiveTotal (totalMatches maxResults : Nat) : Nat :=
  if 0 < totalMatches then min totalMatches maxResults else maxResults

/-- `targetCount = Math.min(totalMatches, maxResults)` used for pagination
and for the later progress callbacks. -/
def targetCount (totalMatches maxResults : Nat) : Nat := min totalMatches maxResults

/-- Offsets of the remaining pages: multiples of `BATCH_SIZE` from
`BATCH_SIZE` (inclusive) up to `target` (exclusive), in increasing order. -/
def offsetsToFetch (target : Nat) : List Nat :=
  (List.range target).filter (fun f => decide (BATCH_SIZE ≤ f ∧ f % BATCH_SIZE = 0))

/-- The offsets actually requested: the remaining pages are fetched only
when the first page did not already cover `targetCount`. -/
def offsetsRequested (firstLen target : Nat) : List Nat :=
  if firstLen < target then offsetsToFetch target else []

/-- Accumulated `allHits` after the crawl: the first page's hits followed by
each remaining page's hits in the order the page fetches COMPLETED
(`allHits.push(...hits)` inside `fetchBatch`).  Each completion carries the
offset it was requested at, for comparison with the offset order. -/
def assembleCompletion (firstHits : List Hit) (completions : List (Nat × List Hit)) : List Hit :=
  firstHits ++ (completions.map Prod.snd).join

/-- Spec-side assembly, following the specification's words: the pages
concatenated in ascending order of their request offsets, regardless of
completion order. -/
def assembleOffsetOrdered (firstHits : List Hit) (completions : List (Nat × List Hit)) :
    List Hit :=
  firstHits ++ ((List.insertionSort (fun p q : Nat × List Hit => p.1 ≤ q.1) completions).map
    Prod.snd).join

/-- The fetched-count values reported by the per-page progress callbacks:
after a page of length `l` completes, `allHits.length` has grown from `len`
to `len + l` and the callback reports `min(allHits.length, target)`. -/
def progressFetched (len target : Nat) : List Nat → List Nat
  | [] => []
  | l :: ls => min (len + l) target :: progressFetched (len + l) target ls

/-- The full sequence of `(fetchedCount, targetCount)` pairs passed to the
progress callback during one crawl: the unclamped first-page report with
`effectiveTotal`, then one clamped report per completed page.  `pageLens`
are the lengths of the remaining pages in completion order. -/
def progressSeq (firstLen totalMatches maxResults : Nat) (pageLens : List Nat) :
    List (Nat × Nat) :=
  (firstLen, effectiveTotal totalMatches maxResults) ::
    (progressFetched firstLen (targetCount totalMatches maxResults) pageLens).map
      (fun n => (n, targetCount totalMatches maxResults))

/-- Steps 4-5 of `fetchDBLPData`: truncate the accumulated hits to
`maxResults`, normalize each hit (with its positional random-id fallback),
and apply the client-side filters. -/
def fetchResult (p : SearchParams) (fresh : Nat → String) (firstHits : List Hit)
    (completions : List (Nat × List Hit)) : List Article :=
  let allHits := assembleCompletion firstHits completions
  let rawArticles := allHits.take (effMaxResults p.maxResults)
  clientFilter p (rawArticles.enum.map (fun ih => normalizeHit (fresh ih.1) ih.2))

/-! ## Analytics: trends and similarity -/

/-- Lexicographic comparison of character lists, by code point.  This is the
order in which the default JS `Array.prototype.sort` arranges (BMP) strings. -/
def charListLe : List Char → List Char → Bool
  | [], _ => true
  | _ :: _, [] => false
  | a :: as, b :: bs => if a = b then charListLe as bs else decide (a < b)

/-- Ascending string order used by `generateTrends` for its year rows. -/
abbrev strLeRel (a b : String) : Prop := charListLe a.data b.data = true

/-- `generateTrends(articles, topKeywords)`: one row per distinct year value
(taken from the data, deduplicated, sorted ascending as strings); each row
carries, for every requested keyword, the number of that year's records
whose tokenized title contains the keyword. -/
def generateTrends (articles : List Article) (topKeywords : List String) :
    List (String × List (String × Nat)) :=
  let years := List.insertionSort strLeRel ((articles.map (fun a => a.year)).dedup)
  years.map (fun year =>
    (year, topKeywords.map (fun kw =>
      (kw, ((articles.filter (fun a => decide (a.year = year))).filter
        (fun a => (tokenize a.title).any (fun t => decide (t = kw)))).length))))

/-- One entry of `findSimilarArticles`' result.  The source's floating-point
score is `overlap / Math.sqrt(denSq)`; the square root is strictly monotone,
so every comparison the source performs on scores is performed here exactly
on the integer pair `(overlap, denSq)`. -/
structure SimilarityResult where
  article : Article
  overlap : Nat
  denSq : Nat
  sharedTerms : List String
deriving DecidableEq, Repr

/-- `findSimilarArticles(target, allArticles, limit)`: the target's tokens
form a set (deduplicated), each candidate's tokens stay a sequence, and the
overlap counts one per occurrence of a shared term in that sequence.
`score > 0.1` is `100 * overlap^2 > denSq`; descending sort by score is
sorting by the cross-multiplied squares. -/
def findSimilarArticles (target : Article) (allArticles : List Article) (limit : Nat) :
    List SimilarityResult :=
  let targetTokens := (tokenize target.title).dedup
  let scored := (allArticles.filter (fun a => decide (a.id ≠ target.id))).map (fun article =>
    let articleTokens := tokenize article.title
    let intersection := articleTokens.filter (fun t => targetTokens.contains t)
    let d := targetTokens.length * articleTokens.length
    { article := article
      overlap := intersection.length
      denSq := if d = 0 then 1 else d
      sharedTerms := intersection })
  let thresholded := scored.filter (fun r => decide (100 * r.overlap ^ 2 > r.denSq))
  (List.insertionSort
    (fun r s : SimilarityResult => s.overlap ^ 2 * r.denSq ≤ r.overlap ^ 2 * s.denSq)
    thresholded).take limit

/-! ## Concrete fixtures used by the claim instances -/

/-- The shape of the authors field that `parseAuthors` branches on. -/
def authorsOf (info? : Option HitInfo) : AuthorsField :=
  match info? with
  | none => AuthorsField.absent
  | some info => info.authors

/-- Deterministic stand-in for the `Math.random()` id fallback generator. -/
def freshId (n : Nat) : String := jsOrS none ("rnd") ++ String.mk (List.replicate n ('x'))

/-- Fixture hit carried by the first page. -/
def hitA : Hit := { atId := some ("A") }

/-- Fixture hit of the page requested at offset 100. -/
def hitB : Hit := { atId := some ("B") }

/-- Fixture hit of the page requested at offset 200. -/
def hitC : Hit := { atId := some ("C") }

/-- Fixture: the same upstream hit repeated across a page boundary. -/
def hitDup : Hit := { atId := some ("conf/c/p1") }

/-- Fixture: an Inproceedings hit whose year string is non-numeric. -/
def hitND : Hit :=
  { atId := some ("x1")
    info := some { type := some ("Inproceedings"), key := some ("conf/x/1"),
                   title := some ("T"), year := some ("n.d.") } }

/-- Fixture search parameters selecting the Journal venue filter. -/
def pJournal : SearchParams := { typeFilter := TypeFilter.journal, maxResults := 10 }

/-- Fixture search parameters with no filtering. -/
def pAll : SearchParams := { maxResults := 50 }

/-- Fixture: a journal record with a numeric year, passing the Journal filter. -/
def artJ : Article := { id := "a", year := "2020", venueType := VenueType.Journal }

/-- The specification's synthetic three-record trend data set. -/
def demoTrends : List Article := [
  { year := "2020", title := "Graph Neural Networks" },
  { year := "2020", title := "Graph Databases" },
  { year := "2021", title := "Neural Compression" }]

/-- The 2020 row of the synthetic trend table. -/
def demoRow : String × List (String × Nat) := ("2020", [("graph", 2)])

/-- Similarity target whose title tokenizes to the single term `quantum`. -/
def tgtQ : Article := { id := "t1", title := "Quantum" }

/-- Similarity candidate whose title repeats the target's term three times. -/
def candQ : Article := { id := "c1", title := "Quantum Quantum Quantum" }

/-! ## Helper lemmas -/

/-- Transitivity of the lexicographic character-list comparison. -/
theorem charListLe_trans :
    ∀ (as bs cs : List Char), charListLe as bs = true → charListLe bs cs = true →
      charListLe as cs = true
  | [], _, _, _, _ => rfl
  | _ :: _, [], _, h1, _ => by simp [charListLe] at h1
  | _ :: _, _ :: _, [], _, h2 => by simp [charListLe] at h2
  | a :: as, b :: bs, c :: cs, h1, h2 => by
    simp only [charListLe] at h1 h2 ⊢
    by_cases hab : a = b
    · subst hab
      rw [if_pos rfl] at h1
      by_cases hac : a = c
      · subst hac
        rw [if_pos rfl] at h2 ⊢
        exact charListLe_trans as bs cs h1 h2
      · rw [if_neg hac] at h2 ⊢
        exact h2
    · rw [if_neg hab] at h1
      have hab' : a < b := by simpa using h1
      by_cases hbc : b = c
      · subst hbc
        rw [if_neg hab]
        simpa using hab'
      · rw [if_neg hbc] at h2
        have hbc' : b < c := by simpa using h2
        have hac : a < c := lt_trans hab' hbc'
        rw [if_neg (ne_of_lt hac)]
        simpa using hac

/-- Totality of the lexicographic character-list comparison. -/
theorem charListLe_total :
    ∀ (as bs : List Char), charListLe as bs = true ∨ charListLe bs as = true
  | [], _ => Or.inl rfl
  | _ :: _, [] => Or.inr rfl
  | a :: as, b :: bs => by
    by_cases hab : a = b
    · subst hab
      rcases charListLe_total as bs with h | h
      · exact Or.inl (by simp [charListLe, h])
      · exact Or.inr (by simp [charListLe, h])
    · rcases lt_or_gt_of_ne hab with h | h
      · refine Or.inl ?_
        simp only [charListLe, if_neg hab]
        simpa using h
      · refine Or.inr ?_
        simp only [charListLe, if_neg (Ne.symm hab)]
        simpa using h

/-- The per-page progress reports are non-decreasing. -/
theorem progressFetched_chain :
    ∀ (pageLens : List Nat) (len target : Nat),
      List.Chain' (· ≤ ·) (progressFetched len target pageLens)
  | [], _, _ => List.chain'_nil
  | [_], _, _ => by simp [progressFetched]
  | l :: l' :: ls, len, target => by
    have ih := progressFetched_chain (l' :: ls) (len + l) target
    simp only [progressFetched] at ih ⊢
    exact List.Chain'.cons (min_le_min (Nat.le_add_right _ _) (le_refl target)) ih

/-- Every per-page progress report is clamped to the target. -/
theorem progressFetched_le :
    ∀ (pageLens : List Nat) (len target : Nat),
      ∀ x ∈ progressFetched len target pageLens, x ≤ target
  | [], _, _ => by intro x hx; simp [progressFetched] at hx
  | l :: ls, len, target => by
    intro x hx
    simp only [progressFetched, List.mem_cons] at hx
    rcases hx with rfl | hx
    · exact min_le_right _ _
    · exact progressFetched_le ls (len + l) target x hx

/-- Remaining offsets are requested only when the first page fell short. -/
theorem offsetsRequested_lt {firstLen target : Nat}
    (h : offsetsRequested firstLen target ≠ []) : firstLen < target := by
  by_cases hlt : firstLen < target
  · exact hlt
  · exact absurd (by simp [offsetsRequested, hlt]) h

/-- A string with a non-empty prefix is itself non-empty. -/
theorem strStartsWith_ne_empty (k pre : String) (hp : pre.data ≠ [])
    (h : strStartsWith k pre = true) : (k != "") = true := by
  rcases k with ⟨kd⟩
  cases kd with
  | nil =>
    rcases pre with ⟨pd⟩
    cases pd with
    | nil => exact absurd rfl hp
    | cons c cs => simp [strStartsWith, List.isPrefixOf] at h
  | cons c cs =>
    simp only [bne_iff_ne, ne_eq]
    intro heq
    have hdata : c :: cs = ([] : List Char) := congrArg String.data heq
    simp at hdata

/-! ## Claim theorems -/

/-- C1, counterexample: with first page `[hitA]` and the page requested at
offset 200 completing before the page requested at offset 100, the records
accumulated by `fetchBatch`'s `allHits.push` are in completion order
`[A, C, B]`, not in ascending offset order `[A, B, C]`: the sequence
returned by `fetchDBLPData` does NOT appear in ascending offset order for
every completion order. -/
theorem c1_counterexample :
    assembleCompletion [hitA] [(200, [hitC]), (100, [hitB])] = [hitA, hitC, hitB]
    ∧ assembleOffsetOrdered [hitA] [(200, [hitC]), (100, [hitB])] = [hitA, hitB, hitC]
    ∧ assembleCompletion [hitA] [(200, [hitC]), (100, [hitB])] ≠
        assembleOffsetOrdered [hitA] [(200, [hitC]), (100, [hitB])] := by decide

/-- C1, amended: the crawl returns the first page's records first, followed
by the remaining pages' records in the order the page fetches completed;
this is a permutation of the ascending-offset assembly (same records, page
boundaries preserved) but not necessarily equal to it. -/
theorem c1_amended_perm (firstHits : List Hit) (completions : List (Nat × List Hit)) :
    (assembleCompletion firstHits completions).Perm
      (assembleOffsetOrdered firstHits completions) := by
  unfold assembleCompletion assembleOffsetOrdered
  exact List.Perm.append_left firstHits
    (((List.perm_insertionSort (fun p q : Nat × List Hit => p.1 ≤ q.1)
      completions).symm.map Prod.snd).join)

/-- C2, counterexample: when the first page reports no total-match count,
`targetCount = min(0, maxResults) = 0`, so with `maxResults = 250` and a
100-hit first page NO further offsets are requested, while the claim says
the offsets `[100, 200]` (the multiples of the page size below
`maxResults`) are still fetched. -/
theorem c2_counterexample :
    offsetsRequested 100 (targetCount (totalMatchesOf none) 250) = []
    ∧ offsetsToFetch 250 = [100, 200]
    ∧ ([] : List Nat) ≠ [100, 200] := by decide

/-- C2, amended: with the total-match count absent, the single progress
callback after the first page does report `targetCount = maxResults`, but
the pagination target is `min(0, maxResults) = 0`, so no further offsets
are fetched regardless of `maxResults`, and the progress sequence consists
of that single report. -/
theorem c2_amended (maxResults firstLen : Nat) :
    offsetsRequested firstLen (targetCount (totalMatchesOf none) maxResults) = []
    ∧ progressSeq firstLen (totalMatchesOf none) maxResults [] = [(firstLen, maxResults)] := by
  constructor
  · simp [offsetsRequested, targetCount, totalMatchesOf]
  · simp [progressSeq, progressFetched, targetCount, totalMatchesOf, effectiveTotal]

/-- C3, counterexample: when `maxResults = 50` is smaller than the page size
and the first page returns 100 hits (with 1000 total matches), the callback
issued right after the first page reports `(fetchedCount, targetCount) =
(100, 50)`: `fetchedCount` exceeds `targetCount` on exactly the callback the
claim singles out. -/
theorem c3_counterexample :
    progressSeq 100 1000 50 [] = [(100, 50)] ∧ ¬ (100 ≤ 50) := by decide

/-- C3, amended: the progress sequence has non-decreasing `fetchedCount`
values, and every callback AFTER the first satisfies
`fetchedCount ≤ targetCount`; the first callback reports the raw first-page
length, which can exceed the reported target when the first page returns
more hits than `maxResults`.  The hypothesis states that one page completes
per requested offset. -/
theorem c3_amended (firstLen totalMatches maxResults : Nat) (pageLens : List Nat)
    (hlen : pageLens.length =
      (offsetsRequested firstLen (targetCount totalMatches maxResults)).length) :
    List.Chain' (fun a b : Nat × Nat => a.1 ≤ b.1)
      (progressSeq firstLen totalMatches maxResults pageLens)
    ∧ ∀ e ∈ (progressSeq firstLen totalMatches maxResults pageLens).tail, e.1 ≤ e.2 := by
  constructor
  · cases pageLens with
    | nil => simp [progressSeq, progressFetched]
    | cons l ls =>
      have hne : offsetsRequested firstLen (targetCount totalMatches maxResults) ≠ [] := by
        intro h0
        rw [h0] at hlen
        simp at hlen
      have hlt := offsetsRequested_lt hne
      rw [progressSeq, List.chain'_cons']
      constructor
      · intro b hb
        simp only [progressFetched, List.map_cons, List.head?_cons, Option.mem_def,
          Option.some_inj] at hb
        rw [← hb]
        exact le_min (Nat.le_add_right _ _) (le_of_lt hlt)
      · rw [List.chain'_map]
        exact progressFetched_chain (l :: ls) firstLen _
  · intro e he
    simp only [progressSeq, List.tail_cons, List.mem_map] at he
    obtain ⟨n, hn, rfl⟩ := he
    exact progressFetched_le _ _ _ n hn

/-- C3, witness: a crawl with a 100-hit first page, 1000 total matches,
`maxResults = 300` and two completed pages of 100 hits each has a
non-decreasing progress sequence. -/
theorem c3_amended_witness :
    List.Chain' (fun a b : Nat × Nat => a.1 ≤ b.1) (progressSeq 100 1000 300 [100, 100]) :=
  (c3_amended 100 1000 300 [100, 100] (by decide)).1

/-- C4: evaluating `fetchWithRetry` at the failing input.  With every
attempt answering HTTP 404 (a non-retryable status by the code's own
comment), the thrown `DBLP API Error` is caught by the loop's own catch
block, so the code still makes all 3 attempts and awaits the backoff delays
1000, 2000 and 3000 ms before surfacing the 404 — byte-for-byte the same
attempt/delay trace as an HTTP 500, which only differs in the surfaced
error.  The claim (no further attempts, no backoff on other 4xx) describes
the intended behaviour, not the actual one. -/
theorem c4_code_bug_eval :
    fetchWithRetry (fun _ => AttemptResult.httpStatus 404) 3 =
      { outcome := FetchOutcome.failure (FetchErr.apiError 404), attempts := 3,
        delays := [1000, 2000, 3000] }
    ∧ fetchWithRetry (fun _ => AttemptResult.httpStatus 500) 3 =
      { outcome := FetchOutcome.failure FetchErr.noConnect, attempts := 3,
        delays := [1000, 2000, 3000] } := by decide

/-- C5, counterexample: two upstream hits with the same `@id` pass through
`fetchDBLPData`'s assembly, normalization and filtering untouched, so the
returned record ids are NOT pairwise distinct: no deduplication happens. -/
theorem c5_counterexample :
    ¬ ((fetchResult pAll freshId [hitDup, hitDup] []).map (fun a => a.id)).Nodup := by decide

/-- C5, amended: the result set is size-bounded — its length never exceeds
`maxResults` (with the `|| 50` default applied) — but it is not
deduplicated: upstream hits repeating an id yield repeated record ids. -/
theorem c5_amended (p : SearchParams) (fresh : Nat → String) (firstHits : List Hit)
    (completions : List (Nat × List Hit)) :
    (fetchResult p fresh firstHits completions).length ≤ effMaxResults p.maxResults
    ∧ (fetchResult pAll freshId [hitDup, hitDup] []).map (fun a => a.id) =
        [("conf/c/p1"), ("conf/c/p1")] := by
  constructor
  · simp only [fetchResult, clientFilter]
    refine le_trans (List.length_filter_le _ _) ?_
    rw [List.length_map, List.enum_length]
    exact List.length_take_le _ _
  · decide

/-- C6, counterexample: an explicitly empty author array is truthy in JS, so
`parseAuthors` reaches the `Array.isArray` branch and returns the EMPTY
list, not the single placeholder entry the claim promises. -/
theorem c6_counterexample :
    parseAuthors (some { authors := AuthorsField.arr [] }) = []
    ∧ ([] : List String) ≠ [("Unknown Author")] := by decide

/-- C6, amended: the authors list produced by normalization is non-empty in
every case EXCEPT when the source supplies an explicitly empty author
array, which yields an empty list rather than the placeholder. -/
theorem c6_amended (info? : Option HitInfo) (h : authorsOf info? ≠ AuthorsField.arr []) :
    parseAuthors info? ≠ [] := by
  cases info? with
  | none => simp [parseAuthors]
  | some info =>
    cases haf : info.authors with
    | absent => simp [parseAuthors, haf]
    | noAuthor => simp [parseAuthors, haf]
    | other => simp [parseAuthors, haf]
    | single t => simp [parseAuthors, haf]
    | arr texts =>
      have hne : texts ≠ [] := by
        intro h0
        exact h (by simp [authorsOf, haf, h0])
      simp [parseAuthors, haf, hne]

/-- C6, witness: a hit with no authors field at all gets a non-empty
(placeholder) author list. -/
theorem c6_amended_witness : parseAuthors none ≠ [] := c6_amended none (by decide)

/-- C7, counterexample: a hit with type field `Inproceedings` and a key
starting with `journals/` is classified `Journal`, because the first branch
ORs the `Article` type test with the `journals/` key prefix test; the claim
says the explicit type field takes precedence and the record is a
Conference. -/
theorem c7_counterexample :
    getVenueType (some ("Inproceedings")) ("journals/corr") = VenueType.Journal
    ∧ VenueType.Journal ≠ VenueType.Conference := by decide

/-- C7, amended: classification tries two OR-branches in the fixed order
Journal then Conference: type `Article` or a `journals/`-prefixed key gives
Journal (so a `journals/` key overrides an `Inproceedings` type), and only
otherwise does type `Inproceedings` or a `conf/`-prefixed key give
Conference; the claim's `Article`-with-`conf/`-key case does yield Journal. -/
theorem c7_amended (t : Option String) (k : String) :
    getVenueType (some ("Article")) k = VenueType.Journal
    ∧ (strStartsWith k ("journals/") = true → getVenueType t k = VenueType.Journal)
    ∧ (t ≠ some ("Article") → strStartsWith k ("journals/") = false →
        (t = some ("Inproceedings") ∨ strStartsWith k ("conf/") = true) →
        getVenueType t k = VenueType.Conference) := by
  refine ⟨?_, ?_, ?_⟩
  · simp [getVenueType]
  · intro h
    have hk := strStartsWith_ne_empty k ("journals/") (by decide) h
    simp [getVenueType, h, hk]
  · intro ht hj hd
    have ht' : (t == some ("Article")) = false := by
      simpa using ht
    rcases hd with rfl | hc
    · simp [getVenueType, ht', hj]
    · have hk := strStartsWith_ne_empty k ("conf/") (by decide) hc
      simp [getVenueType, ht', hj, hc, hk]

/-- C7, witness: with no type field, a `journals/`-prefixed key classifies
as Journal. -/
theorem c7_amended_witness : getVenueType none ("journals/mj") = VenueType.Journal :=
  (c7_amended none ("journals/mj")).2.1 (by decide)

/-- C8, counterexample: with the Journal filter selected, a record whose
year string `n.d.` does not parse returns `true` from the filter predicate
before the venue-type test runs, so a Conference record is returned: not
every returned record has the filtered venue type. -/
theorem c8_counterexample :
    (fetchResult pJournal freshId [hitND] []).map (fun a => a.venueType) =
      [VenueType.Conference]
    ∧ pJournal.typeFilter = TypeFilter.journal
    ∧ VenueType.Conference ≠ VenueType.Journal := by decide

/-- C8, amended: the venue-type filter constrains exactly the records whose
year string parses: a returned record with a parseable year matches the
selected venue type, while a record with an unparseable year always passes
the whole filter (both year range and venue type). -/
theorem c8_amended :
    (∀ (p : SearchParams) (articles : List Article) (a : Article),
      a ∈ clientFilter p articles → (jsParseInt a.year).isSome = true →
        (p.typeFilter = TypeFilter.journal → a.venueType = VenueType.Journal)
        ∧ (p.typeFilter = TypeFilter.conference → a.venueType = VenueType.Conference))
    ∧ (∀ (p : SearchParams) (articles : List Article) (a : Article),
      a ∈ articles → jsParseInt a.year = none → a ∈ clientFilter p articles) := by
  constructor
  · intro p articles a hmem hsome
    have hp : filterPred p a = true := (List.mem_filter.mp hmem).2
    cases hy : jsParseInt a.year with
    | none => rw [hy] at hsome; simp at hsome
    | some y =>
      simp only [filterPred, hy, Bool.and_eq_true] at hp
      have htm := hp.2
      constructor
      · intro htf
        rw [htf] at htm
        simpa [typeMatchB] using htm
      · intro htf
        rw [htf] at htm
        simpa [typeMatchB] using htm
  · intro p articles a ha hnone
    refine List.mem_filter.mpr ⟨ha, ?_⟩
    simp only [filterPred, hnone]

/-- C8, witness: a Journal record with year 2020 kept by the Journal filter
indeed has venue type Journal. -/
theorem c8_amended_witness : artJ.venueType = VenueType.Journal :=
  (c8_amended.1 pJournal [artJ] artJ (by decide) (by decide)).1 rfl

/-- C9: `generateTrends` produces one row per distinct year value, sorted
ascending in lexicographic string order; each row's count for a term is the
number of that year's records whose tokenized title contains the term; and
the specification's synthetic three-record set with term `graph` yields
counts 2 for 2020 and 0 for 2021. -/
theorem c9_trends (articles : List Article) (terms : List String) :
    List.Sorted strLeRel ((generateTrends articles terms).map Prod.fst)
    ∧ ((generateTrends articles terms).map Prod.fst).Perm
        ((articles.map (fun a => a.year)).dedup)
    ∧ (∀ row ∈ generateTrends articles terms,
        row.2 = terms.map (fun kw =>
          (kw, ((articles.filter (fun a => decide (a.year = row.1))).filter
            (fun a => (tokenize a.title).any (fun t => decide (t = kw)))).length)))
    ∧ generateTrends demoTrends [("graph")] =
        [("2020", [("graph", 2)]), ("2021", [("graph", 0)])] := by
  have hmap : (generateTrends articles terms).map Prod.fst =
      List.insertionSort strLeRel ((articles.map (fun a => a.year)).dedup) := by
    simp only [generateTrends, List.map_map]
    exact List.map_id _
  refine ⟨?_, ?_, ?_, ?_⟩
  · rw [hmap]
    haveI : IsTotal String strLeRel := ⟨fun a b => charListLe_total a.data b.data⟩
    haveI : IsTrans String strLeRel := ⟨fun a b c => charListLe_trans a.data b.data c.data⟩
    exact List.sorted_insertionSort strLeRel _
  · rw [hmap]
    exact List.perm_insertionSort strLeRel _
  · intro row hrow
    simp only [generateTrends, List.mem_map] at hrow
    obtain ⟨y, hy, rfl⟩ := hrow
    rfl
  · decide

/-- C9, witness: the 2020 row of the synthetic set carries exactly the
per-term counts computed from the records of that year. -/
theorem c9_trends_witness :
    demoRow.2 = [("graph")].map (fun kw =>
      (kw, ((demoTrends.filter (fun a => decide (a.year = demoRow.1))).filter
        (fun a => (tokenize a.title).any (fun t => decide (t = kw)))).length)) :=
  (c9_trends demoTrends [("graph")]).2.2.1 demoRow (by decide)

/-- C10: similarity scores are not bounded by 1.  For the target `Quantum`
and the candidate `Quantum Quantum Quantum`, the overlap counts one per
occurrence of the shared term in the candidate's token SEQUENCE, giving the
single returned entry overlap 3 with squared denominator 3 = 1 × 3
(target term-set size times candidate sequence length); hence
overlap² = 9 > 3 = denSq, i.e. the source's score 3/√3 = √3 is strictly
greater than 1. -/
theorem c10_similarity_unbounded :
    findSimilarArticles tgtQ [candQ] 5 =
      [{ article := candQ, overlap := 3, denSq := 3,
         sharedTerms := [("quantum"), ("quantum"), ("quantum")] }]
    ∧ (tokenize tgtQ.title).dedup.length * (tokenize candQ.title).length = 3
    ∧ 3 ^ 2 > 3 := by decide
